import Mathlib

/-!
Verification of the USB gamepad driver `sb_gamepad.py`.

This file gives a shallow embedding of the driver's pure logic:
the canonical button-bit constants, the per-device-type report
normalizers, the device-scan / fingerprint-cache logic of
`find_usb_device`, and the polling state machine inside
`int0_read_generator` (rate limiting, report deduplication with the
alternating buffers, and the consecutive-timeout disconnect heuristic).
Machine bytes are modelled as `Nat` (with explicit `< 256` bounds where
they matter), reports as `List Nat`, and the generator's `yield`ed
values as an explicit result type.  The `Descriptor` accessor results
(descriptor bytes, port path, vid/pid, class/subclass tuples) are
carried as fields of `UsbDevice`, since the descriptor parser lives in
a separate library module; `find_usb_device` itself only consumes those
accessor values.
-/

namespace SbGamepad

/-! ## Button bitmask constants (sb_gamepad.py lines 23-35) -/

def UP     : Nat := 0x0001
def DOWN   : Nat := 0x0002
def LEFT   : Nat := 0x0004
def RIGHT  : Nat := 0x0008
def START  : Nat := 0x0010
def SELECT : Nat := 0x0020
def L      : Nat := 0x0100
def R      : Nat := 0x0200
def B      : Nat := 0x1000
def A      : Nat := 0x2000
def Y      : Nat := 0x4000
def X      : Nat := 0x8000

/-- The twelve defined canonical button bits, or-ed together (= 0xF33F). -/
def BUTTON_MASK : Nat :=
  UP ||| DOWN ||| LEFT ||| RIGHT ||| START ||| SELECT |||
  L ||| R ||| B ||| A ||| Y ||| X

/-- The four direction bits UP/DOWN/LEFT/RIGHT (= 0x000F). -/
def DIR_MASK : Nat := UP ||| DOWN ||| LEFT ||| RIGHT

/-! ## Device type constants (sb_gamepad.py lines 37-43) -/

def TYPE_SWITCH_PRO    : Nat := 1
def TYPE_ADAFRUIT_SNES : Nat := 2
def TYPE_8BITDO_ZERO2  : Nat := 3
def TYPE_XINPUT        : Nat := 4
def TYPE_BOOT_KEYBOARD : Nat := 5
def TYPE_POWERA_WIRED  : Nat := 6

/-! ## Timeout ceilings (sb_gamepad.py lines 49-50) -/

def TOO_MANY_GAMEPAD_TIMEOUTS : Nat := 99
def TOO_MANY_KEYBOARD_TIMEOUTS : Nat := 9999

/-- Ceiling selection in `int0_read_generator` (lines 518-521):
keyboards get the large ceiling, every other type the gamepad one. -/
def max_timeouts (dev_type : Nat) : Nat :=
  if dev_type = TYPE_BOOT_KEYBOARD then TOO_MANY_KEYBOARD_TIMEOUTS
  else TOO_MANY_GAMEPAD_TIMEOUTS

/-! ## Report normalizers (closures in `input_event_generator`)

Each normalizer is the body of the per-report loop of the corresponding
generator in `input_event_generator`, applied to one (non-None) filtered
report.  Python's `v |= K if cond else 0` accumulation is written as the
or-chain of the same terms in the same order.  Byte arguments are the
bytes of the filtered report at the indices the Python body reads. -/

/-- Normalizer for TYPE_SWITCH_PRO (lines 267-288); arguments are the
three bytes of the filtered report `d[3:6]`. -/
def normalize_switchpro (d2 d3 d4 : Nat) : Nat :=
  (if d2 &&& 0x01 ≠ 0 then Y else 0) |||
  (if d2 &&& 0x02 ≠ 0 then X else 0) |||
  (if d2 &&& 0x04 ≠ 0 then B else 0) |||
  (if d2 &&& 0x08 ≠ 0 then A else 0) |||
  (if d2 &&& 0x40 ≠ 0 then R else 0) |||
  (if d3 &&& 0x01 ≠ 0 then SELECT else 0) |||
  (if d3 &&& 0x02 ≠ 0 then START else 0) |||
  (if d4 &&& 0x01 ≠ 0 then DOWN else 0) |||
  (if d4 &&& 0x02 ≠ 0 then UP else 0) |||
  (if d4 &&& 0x04 ≠ 0 then RIGHT else 0) |||
  (if d4 &&& 0x08 ≠ 0 then LEFT else 0) |||
  (if d4 &&& 0x40 ≠ 0 then L else 0)

/-- Normalizer for TYPE_ADAFRUIT_SNES (lines 302-326); arguments are
bytes 0, 1, 5 and 6 of the filtered report `d[:7]`. -/
def normalize_adasnes (d0 d1 d5 d6 : Nat) : Nat :=
  (if d0 = 0x00 then LEFT else 0) |||
  (if d0 = 0xff then RIGHT else 0) |||
  (if d1 = 0x00 then UP else 0) |||
  (if d1 = 0xff then DOWN else 0) |||
  (if d5 &&& 0x10 ≠ 0 then X else 0) |||
  (if d5 &&& 0x20 ≠ 0 then A else 0) |||
  (if d5 &&& 0x40 ≠ 0 then B else 0) |||
  (if d5 &&& 0x80 ≠ 0 then Y else 0) |||
  (if d6 &&& 0x01 ≠ 0 then L else 0) |||
  (if d6 &&& 0x02 ≠ 0 then R else 0) |||
  (if d6 &&& 0x10 ≠ 0 then SELECT else 0) |||
  (if d6 &&& 0x20 ≠ 0 then START else 0)

/-- The 4-bit BCD dpad decode: the eight `v |= ... if d2 == k else 0`
lines shared verbatim by `normalize_zero2` (lines 359-366) and
`normalize_powera_wired` (lines 400-407). -/
def bcd_dpad (d2 : Nat) : Nat :=
  (if d2 = 0x00 then UP else 0) |||
  (if d2 = 0x01 then UP ||| RIGHT else 0) |||
  (if d2 = 0x02 then RIGHT else 0) |||
  (if d2 = 0x03 then DOWN ||| RIGHT else 0) |||
  (if d2 = 0x04 then DOWN else 0) |||
  (if d2 = 0x05 then DOWN ||| LEFT else 0) |||
  (if d2 = 0x06 then LEFT else 0) |||
  (if d2 = 0x07 then UP ||| LEFT else 0)

/-- Closed-form table for the BCD dpad decode: value 0x00-0x07 picks one
of the eight direction/diagonal combinations, anything else (including
the centered sentinel 0x0f) gives no direction bits.  Proved equal to
`bcd_dpad` below. -/
def bcd_dir (d2 : Nat) : Nat :=
  if d2 = 0x00 then UP
  else if d2 = 0x01 then UP ||| RIGHT
  else if d2 = 0x02 then RIGHT
  else if d2 = 0x03 then DOWN ||| RIGHT
  else if d2 = 0x04 then DOWN
  else if d2 = 0x05 then DOWN ||| LEFT
  else if d2 = 0x06 then LEFT
  else if d2 = 0x07 then UP ||| LEFT
  else 0

/-- Button-bitfield part of `normalize_zero2` (lines 350-357). -/
def zero2_buttons (d0 d1 : Nat) : Nat :=
  (if d0 &&& 0x01 ≠ 0 then A else 0) |||
  (if d0 &&& 0x02 ≠ 0 then B else 0) |||
  (if d0 &&& 0x08 ≠ 0 then X else 0) |||
  (if d0 &&& 0x10 ≠ 0 then Y else 0) |||
  (if d0 &&& 0x40 ≠ 0 then L else 0) |||
  (if d0 &&& 0x80 ≠ 0 then R else 0) |||
  (if d1 &&& 0x04 ≠ 0 then SELECT else 0) |||
  (if d1 &&& 0x08 ≠ 0 then START else 0)

/-- Normalizer for TYPE_8BITDO_ZERO2 (lines 340-367); arguments are the
three bytes of the filtered report `d[:3]`. -/
def normalize_zero2 (d0 d1 d2 : Nat) : Nat :=
  zero2_buttons d0 d1 ||| bcd_dpad d2

/-- Button-bitfield part of `normalize_powera_wired` (lines 391-398). -/
def powera_buttons (d0 d1 : Nat) : Nat :=
  (if d0 &&& 0x01 ≠ 0 then Y else 0) |||
  (if d0 &&& 0x02 ≠ 0 then B else 0) |||
  (if d0 &&& 0x04 ≠ 0 then A else 0) |||
  (if d0 &&& 0x08 ≠ 0 then X else 0) |||
  (if d0 &&& 0x10 ≠ 0 then L else 0) |||
  (if d0 &&& 0x20 ≠ 0 then R else 0) |||
  (if d1 &&& 0x01 ≠ 0 then SELECT else 0) |||
  (if d1 &&& 0x02 ≠ 0 then START else 0)

/-- Normalizer for TYPE_POWERA_WIRED (lines 381-408); arguments are the
three bytes of the filtered report `d[:3]`. -/
def normalize_powera_wired (d0 d1 d2 : Nat) : Nat :=
  powera_buttons d0 d1 ||| bcd_dpad d2

/-- Normalizer for TYPE_XINPUT (lines 418-420): the filtered two bytes
`d[2:4]` are combined as `(d[1] << 8) | d[0]` and passed through. -/
def normalize_xinput (d : List Nat) : Nat :=
  (d.getD 1 0 <<< 8) ||| d.getD 0 0

/-- The three key-code slots `(d[2], d[3], d[4])` the boot keyboard
decoder considers (line 442). -/
def keyboard_codes (d : List Nat) : List Nat :=
  [d.getD 2 0, d.getD 3 0, d.getD 4 0]

/-- Normalizer for TYPE_BOOT_KEYBOARD (lines 432-469): only the first
three of the six rollover slots are considered, modifiers (byte 0) are
ignored, and the up/down and left/right pairs are if/elif chains with
up and left taking priority. -/
def normalize_boot_keyboard (d : List Nat) : Nat :=
  (if 0x1a ∈ keyboard_codes d ∨ 0x52 ∈ keyboard_codes d then UP
   else if 0x16 ∈ keyboard_codes d ∨ 0x51 ∈ keyboard_codes d then DOWN else 0) |||
  (if 0x04 ∈ keyboard_codes d ∨ 0x50 ∈ keyboard_codes d then LEFT
   else if 0x07 ∈ keyboard_codes d ∨ 0x4f ∈ keyboard_codes d then RIGHT else 0) |||
  (if 0x1d ∈ keyboard_codes d ∨ 0x2c ∈ keyboard_codes d then A else 0) |||
  (if 0x1b ∈ keyboard_codes d then B else 0) |||
  (if 0x06 ∈ keyboard_codes d then X else 0) |||
  (if 0x19 ∈ keyboard_codes d then Y else 0) |||
  (if 0x14 ∈ keyboard_codes d then L else 0) |||
  (if 0x08 ∈ keyboard_codes d then R else 0) |||
  (if 0x28 ∈ keyboard_codes d then START else 0) |||
  (if 0x29 ∈ keyboard_codes d then SELECT else 0)

/-! ## Device scan (`find_usb_device`, lines 53-106) -/

/-- One enumerated USB device, as `find_usb_device` sees it: the raw
descriptor bytes and port path (the fingerprint ingredients), plus the
`Descriptor` accessor results used for signature matching. -/
structure UsbDevice where
  desc_bytes : List Nat
  port_numbers : List Nat
  vid : Nat
  pid : Nat
  dev_cs : Nat × Nat
  int0_cs : Nat × Nat
deriving Repr, DecidableEq

/-- Result of one scan call: a matched device type and tag plus the
updated cache, no new device plus the (possibly updated) cache, or the
ValueError raised on an all-zeros descriptor. -/
inductive ScanOutcome where
  | found (dev_type : Nat) (tag : String) (cache : List (List Nat × List Nat))
  | noneFound (cache : List (List Nat × List Nat))
  | enumError
deriving Repr, DecidableEq

/-- The vid:pid / class-subclass signature chain of `find_usb_device`
(lines 88-105), in source order; `none` means the device is skipped. -/
def match_signature (d : UsbDevice) : Option (Nat × String) :=
  if (d.vid, d.pid) = (0x057e, 0x2009) then some (TYPE_SWITCH_PRO, "SwitchPro")
  else if (d.vid, d.pid) = (0x081f, 0xe401) then
    some (TYPE_ADAFRUIT_SNES, "AdafruitSNES")
  else if (d.vid, d.pid) = (0x2dc8, 0x9018) then
    some (TYPE_8BITDO_ZERO2, "8BitDoZero2")
  else if (d.vid, d.pid) = (0x20d6, 0xa711) then
    some (TYPE_POWERA_WIRED, "PowerAWired")
  else if d.dev_cs = (0xff, 0xff) ∧ d.int0_cs = (0xff, 0x5d) then
    some (TYPE_XINPUT, "XInput")
  else if d.dev_cs = (0x00, 0x00) ∧ d.int0_cs = (0x03, 0x01) then
    some (TYPE_BOOT_KEYBOARD, "BootKeyboard")
  else none

/-- The scan loop of `find_usb_device` over the enumerated device list.
Per device, in source order: the all-zeros descriptor check raises
(lines 66-68), a cache hit returns None immediately (lines 72-74),
otherwise the key is recorded (line 76) and the signature chain either
returns an `InputDevice` or continues with the next device.  The cache
key `str(desc_bytes) + str(device.port_numbers)` is modelled as the
pair of its two ingredients. -/
def find_usb_device : List UsbDevice → List (List Nat × List Nat) → ScanOutcome
  | [], cache => .noneFound cache
  | d :: rest, cache =>
    if d.desc_bytes.all (fun b => b == 0) then .enumError
    else if (d.desc_bytes, d.port_numbers) ∈ cache then .noneFound cache
    else
      let cache2 := (d.desc_bytes, d.port_numbers) :: cache
      match match_signature d with
      | some (ty, tag) => .found ty tag cache2
      | none => find_usb_device rest cache2

/-- Concrete device whose fingerprint we place in the cache for the C3
counterexample: unmatched vid:pid, non-zero descriptor. -/
def demo_cached_device : UsbDevice :=
  { desc_bytes := [18, 1], port_numbers := [1], vid := 0x1234, pid := 0x5678,
    dev_cs := (0, 0), int0_cs := (0, 0) }

/-- Concrete uncached device matching the SwitchPro signature, placed
after the cached device in the same enumeration. -/
def demo_switchpro_device : UsbDevice :=
  { desc_bytes := [18, 2], port_numbers := [2], vid := 0x057e, pid := 0x2009,
    dev_cs := (0, 0), int0_cs := (0, 0) }

/-! ## Polling state machine (`int0_read_generator`, lines 475-577) -/

/-- The 1 ms-unit polling interval (lines 494-499): `bInterval` is used
directly unless the device is high-speed, in which case the code
computes `(2 << (bInterval - 1)) >> 3`. -/
def interval_1ms_units (speed_high : Bool) (bInterval : Nat) : Nat :=
  if speed_high then (2 <<< (bInterval - 1)) >>> 3 else bInterval

/-- High-speed interval in 1 ms units as the spec (and the code's own
comment at line 487) states it: 2^(bInterval-1) x 125 microseconds,
converted to milliseconds.  Kept separate from `interval_1ms_units` to
compare the two. -/
def hs_interval_ms_spec (bInterval : Nat) : Nat :=
  2 ^ (bInterval - 1) * 125 / 1000

/-- The rate-limit threshold `(interval * 3) >> 2`, i.e. 75% of the max
polling interval (line 514). -/
def poll_target (interval : Nat) : Nat := (interval * 3) >>> 2

/-- What one attempted endpoint read does: returns some bytes, times
out, or fails with another USB error. -/
inductive ReadOutcome where
  | success (bytes : List Nat)
  | timeout
  | usbError
deriving Repr, DecidableEq

/-- What one cycle of the polling loop yields to the caller: `suppress`
models `yield None` (rate limit, NoSignal filter, duplicate report, or
tolerated timeout), `emit` models yielding a fresh filtered report,
`disconnected` models re-raising `USBTimeoutError` past the ceiling,
and `fatal` models re-raising any other `USBError`. -/
inductive PollYield where
  | suppress
  | emit (report : List Nat)
  | disconnected
  | fatal
deriving Repr, DecidableEq

/-- The loop-carried state of `int0_read_generator`: which buffer is
active (`odd`), the retained previous filtered report (as a byte-list
value; the generator keeps it as a memoryview into the buffer that the
next read never overwrites), the consecutive-timeout counter, and the
rate-limiter accumulator `poll_ms`. -/
structure PollState where
  odd : Bool
  prev_report : List Nat
  timeouts : Nat
  poll_ms : Nat
deriving Repr, DecidableEq

/-- State at entry to the polling loop (lines 501-518): odd buffer
active, `prev_report` the zeroed even buffer of `max_packet` bytes,
counters at zero. -/
def initPollState (max_packet : Nat) : PollState :=
  { odd := true, prev_report := List.replicate max_packet 0,
    timeouts := 0, poll_ms := 0 }

/-- One cycle of the polling loop (lines 524-577).  `f` is the per-type
`filter_fn` (returning `none` for NoSignal), `mt` the timeout ceiling,
`tg` the rate-limit threshold, `dt` this cycle's elapsed milliseconds,
and `outcome` what the endpoint read would return if issued.  Below the
threshold the loop yields None without reading; otherwise the
accumulator resets and one read is issued: on success the counter
resets and the filtered report is deduplicated against `prev_report`
(equal or NoSignal yields None with no buffer swap; fresh data is
retained, the buffers swap roles, and the report is yielded); a timeout
bumps the counter and re-raises past the ceiling; any other USB error
re-raises immediately. -/
def pollStep (f : List Nat → Option (List Nat)) (mt tg : Nat)
    (s : PollState) (dt : Nat) (outcome : ReadOutcome) :
    PollState × PollYield :=
  if s.poll_ms + dt < tg then
    ({ s with poll_ms := s.poll_ms + dt }, .suppress)
  else
    match outcome with
    | .success bytes =>
      match f bytes with
      | none => ({ s with poll_ms := 0, timeouts := 0 }, .suppress)
      | some report =>
        if report = s.prev_report then
          ({ s with poll_ms := 0, timeouts := 0 }, .suppress)
        else
          ({ s with poll_ms := 0, timeouts := 0, prev_report := report, odd := !s.odd },
           .emit report)
    | .timeout =>
      if s.timeouts + 1 > mt then
        ({ s with poll_ms := 0, timeouts := s.timeouts + 1 }, .disconnected)
      else
        ({ s with poll_ms := 0, timeouts := s.timeouts + 1 }, .suppress)
    | .usbError => ({ s with poll_ms := 0 }, .fatal)

/-- Iterate `pollStep` for `n` cycles in which every issued read times
out, collecting the yielded values in order. -/
def pollRunTimeouts (f : List Nat → Option (List Nat)) (mt tg dt : Nat) :
    Nat → PollState → PollState × List PollYield
  | 0, s => (s, [])
  | Nat.succ k, s =>
    let r := pollStep f mt tg s dt .timeout
    let rest := pollRunTimeouts f mt tg dt k r.1
    (rest.1, r.2 :: rest.2)

/-! ## Helper lemmas about or-chains of masked constants -/

theorem and_zero_lor {a b m : Nat} (h1 : a &&& m = 0) (h2 : b &&& m = 0) :
    (a ||| b) &&& m = 0 := by
  rw [Nat.and_distrib_right, h1, h2]
  decide

theorem and_zero_ite (c : Prop) [Decidable c] {a m : Nat} (h : a &&& m = 0) :
    (if c then a else 0) &&& m = 0 := by
  split
  · exact h
  · exact Nat.zero_and m

theorem and_zero_ite2 (c₁ c₂ : Prop) [Decidable c₁] [Decidable c₂] {a b m : Nat}
    (h1 : a &&& m = 0) (h2 : b &&& m = 0) :
    (if c₁ then a else if c₂ then b else 0) &&& m = 0 := by
  split
  · exact h1
  · exact and_zero_ite c₂ h2

theorem and_mask_lor {a b m : Nat} (h1 : a &&& m = a) (h2 : b &&& m = b) :
    (a ||| b) &&& m = a ||| b := by
  rw [Nat.and_distrib_right, h1, h2]

theorem and_mask_ite (c : Prop) [Decidable c] {a m : Nat} (h : a &&& m = a) :
    (if c then a else 0) &&& m = if c then a else 0 := by
  split
  · exact h
  · exact Nat.zero_and m

theorem and_mask_ite2 (c₁ c₂ : Prop) [Decidable c₁] [Decidable c₂] {a b m : Nat}
    (h1 : a &&& m = a) (h2 : b &&& m = b) :
    (if c₁ then a else if c₂ then b else 0) &&& m
      = if c₁ then a else if c₂ then b else 0 := by
  split
  · exact h1
  · exact and_mask_ite c₂ h2

theorem lor_eq_zero_left {a b : Nat} (h : a ||| b = 0) : a = 0 := by
  apply Nat.eq_of_testBit_eq
  intro i
  have := congrArg (fun n => Nat.testBit n i) h
  simp only [Nat.testBit_or] at this
  simp only [Nat.zero_testBit] at this ⊢
  exact Bool.or_eq_false_iff.mp this |>.1

theorem and_ne_zero_lor {x y m : Nat} (h : x &&& m ≠ 0) : (x ||| y) &&& m ≠ 0 := by
  rw [Nat.and_distrib_right]
  intro hc
  exact h (lor_eq_zero_left hc)

theorem and_sub_mask {v m s : Nat} (h : v &&& m = 0) (hs : m &&& s = s) :
    v &&& s = 0 := by
  have h2 : v &&& s = v &&& (m &&& s) := by rw [hs]
  rw [h2, ← Nat.and_assoc, h, Nat.zero_and]

theorem le_of_and_mask {v m : Nat} (h : v &&& m = v) : v ≤ m := by
  calc v = v &&& m := h.symm
  _ ≤ m := Nat.and_le_right

/-! ## BCD dpad table lemmas -/

theorem bcd_dir_gt7 {d2 : Nat} (h : 7 < d2) : bcd_dir d2 = 0 := by
  have hne : ∀ k, k ≤ 7 → d2 ≠ k := fun k hk => by omega
  simp [bcd_dir, hne 0 (by norm_num), hne 1 (by norm_num), hne 2 (by norm_num),
    hne 3 (by norm_num), hne 4 (by norm_num), hne 5 (by norm_num),
    hne 6 (by norm_num), hne 7 (by norm_num)]

theorem bcd_dpad_eq (d2 : Nat) : bcd_dpad d2 = bcd_dir d2 := by
  rcases le_or_lt d2 7 with h | h
  · interval_cases d2 <;> decide
  · rw [bcd_dir_gt7 h]
    have hne : ∀ k, k ≤ 7 → d2 ≠ k := fun k hk => by omega
    simp [bcd_dpad, hne 0 (by norm_num), hne 1 (by norm_num), hne 2 (by norm_num),
      hne 3 (by norm_num), hne 4 (by norm_num), hne 5 (by norm_num),
      hne 6 (by norm_num), hne 7 (by norm_num)]

theorem bcd_dir_dirmask (d2 : Nat) : bcd_dir d2 &&& DIR_MASK = bcd_dir d2 := by
  rcases le_or_lt d2 7 with h | h
  · interval_cases d2 <;> decide
  · rw [bcd_dir_gt7 h]
    exact Nat.zero_and DIR_MASK

theorem bcd_dir_no_opposing (d2 : Nat) :
    (bcd_dir d2 &&& UP = 0 ∨ bcd_dir d2 &&& DOWN = 0)
    ∧ (bcd_dir d2 &&& LEFT = 0 ∨ bcd_dir d2 &&& RIGHT = 0) := by
  rcases le_or_lt d2 7 with h | h
  · interval_cases d2 <;> exact ⟨by decide, by decide⟩
  · rw [bcd_dir_gt7 h]
    exact ⟨Or.inl (by decide), Or.inl (by decide)⟩

theorem zero2_buttons_dirmask (d0 d1 : Nat) : zero2_buttons d0 d1 &&& DIR_MASK = 0 := by
  unfold zero2_buttons
  repeat' first
  | apply and_zero_lor
  | apply and_zero_ite
  all_goals decide

theorem powera_buttons_dirmask (d0 d1 : Nat) :
    powera_buttons d0 d1 &&& DIR_MASK = 0 := by
  unfold powera_buttons
  repeat' first
  | apply and_zero_lor
  | apply and_zero_ite
  all_goals decide

theorem zero2_and_dir (d0 d1 d2 m : Nat) (hm : DIR_MASK &&& m = m) :
    normalize_zero2 d0 d1 d2 &&& m = bcd_dir d2 &&& m := by
  unfold normalize_zero2
  rw [Nat.and_distrib_right, bcd_dpad_eq,
    and_sub_mask (zero2_buttons_dirmask d0 d1) hm, Nat.zero_or]

theorem powera_and_dir (d0 d1 d2 m : Nat) (hm : DIR_MASK &&& m = m) :
    normalize_powera_wired d0 d1 d2 &&& m = bcd_dir d2 &&& m := by
  unfold normalize_powera_wired
  rw [Nat.and_distrib_right, bcd_dpad_eq,
    and_sub_mask (powera_buttons_dirmask d0 d1) hm, Nat.zero_or]

/-! ## 16-bit / canonical-bit range lemmas -/

theorem normalize_switchpro_mask (d2 d3 d4 : Nat) :
    normalize_switchpro d2 d3 d4 &&& BUTTON_MASK = normalize_switchpro d2 d3 d4 := by
  unfold normalize_switchpro
  repeat' first
  | apply and_mask_lor
  | apply and_mask_ite
  all_goals decide

theorem normalize_adasnes_mask (d0 d1 d5 d6 : Nat) :
    normalize_adasnes d0 d1 d5 d6 &&& BUTTON_MASK = normalize_adasnes d0 d1 d5 d6 := by
  unfold normalize_adasnes
  repeat' first
  | apply and_mask_lor
  | apply and_mask_ite
  all_goals decide

theorem bcd_dpad_mask (d2 : Nat) :
    bcd_dpad d2 &&& BUTTON_MASK = bcd_dpad d2 := by
  unfold bcd_dpad
  repeat' first
  | apply and_mask_lor
  | apply and_mask_ite
  all_goals decide

theorem normalize_zero2_mask (d0 d1 d2 : Nat) :
    normalize_zero2 d0 d1 d2 &&& BUTTON_MASK = normalize_zero2 d0 d1 d2 := by
  unfold normalize_zero2
  apply and_mask_lor _ (bcd_dpad_mask d2)
  unfold zero2_buttons
  repeat' first
  | apply and_mask_lor
  | apply and_mask_ite
  all_goals decide

theorem normalize_powera_mask (d0 d1 d2 : Nat) :
    normalize_powera_wired d0 d1 d2 &&& BUTTON_MASK = normalize_powera_wired d0 d1 d2 := by
  unfold normalize_powera_wired
  apply and_mask_lor _ (bcd_dpad_mask d2)
  unfold powera_buttons
  repeat' first
  | apply and_mask_lor
  | apply and_mask_ite
  all_goals decide

theorem normalize_boot_keyboard_mask (d : List Nat) :
    normalize_boot_keyboard d &&& BUTTON_MASK = normalize_boot_keyboard d := by
  unfold normalize_boot_keyboard
  repeat' first
  | apply and_mask_lor
  | apply and_mask_ite
  | apply and_mask_ite2
  all_goals decide

/-! ## Claim C5: XInput canonical-layout passthrough -/

/-- C5: for the canonical-layout (XInput) type and every byte pair
[lo, hi], the normalizer returns exactly (hi <<< 8) ||| lo, which for
bytes is the little-endian 16-bit value 256 * hi + lo, unchanged. -/
theorem c5_xinput_passthrough (lo hi : Nat) :
    normalize_xinput [lo, hi] = (hi <<< 8) ||| lo
    ∧ (lo < 256 → (hi <<< 8) ||| lo = 256 * hi + lo) := by
  constructor
  · rfl
  · intro h
    have hadd := Nat.mul_add_lt_is_or (i := 8) (b := lo) (by norm_num; omega) hi
    rw [Nat.shiftLeft_eq]
    norm_num at hadd ⊢
    rw [Nat.mul_comm hi 256]
    exact hadd.symm

/-- Witness for C5 at lo = 0x00, hi = 0x10 (spec Scenario 2: canonical
raw bytes [0x00, 0x10] give 0x1000, the B button). -/
theorem c5_witness :
    normalize_xinput [0x00, 0x10] = (0x10 <<< 8) ||| 0x00
    ∧ (0x10 <<< 8) ||| 0x00 = 256 * 0x10 + 0x00 := by
  refine ⟨(c5_xinput_passthrough 0x00 0x10).1, ?_⟩
  exact (c5_xinput_passthrough 0x00 0x10).2 (by decide)

/-! ## Claim C6: BCD dpad decoding for 8BitDo Zero 2 and PowerA Wired -/

/-- C6: for both BCD-dpad normalizers, the direction bits of the output
are exactly the `bcd_dir` table of the direction byte: a byte 0x00-0x07
picks one of the eight direction/diagonal combinations (injectively, so
exactly one), and any byte outside 0x00-0x07 (such as the centered
sentinel 0x0f) contributes no direction bits. -/
theorem c6_bcd_dpad (d0 d1 d2 : Nat) :
    (normalize_zero2 d0 d1 d2 &&& DIR_MASK = bcd_dir d2
      ∧ normalize_powera_wired d0 d1 d2 &&& DIR_MASK = bcd_dir d2)
    ∧ (d2 ≤ 7 →
        bcd_dir d2 ∈ [UP, UP ||| RIGHT, RIGHT, DOWN ||| RIGHT, DOWN,
          DOWN ||| LEFT, LEFT, UP ||| LEFT])
    ∧ (d2 ≤ 7 → ∀ e ≤ 7, bcd_dir d2 = bcd_dir e → d2 = e)
    ∧ (7 < d2 →
        normalize_zero2 d0 d1 d2 &&& DIR_MASK = 0
        ∧ normalize_powera_wired d0 d1 d2 &&& DIR_MASK = 0) := by
  have hz : normalize_zero2 d0 d1 d2 &&& DIR_MASK = bcd_dir d2 := by
    rw [zero2_and_dir d0 d1 d2 DIR_MASK (by decide), bcd_dir_dirmask]
  have hp : normalize_powera_wired d0 d1 d2 &&& DIR_MASK = bcd_dir d2 := by
    rw [powera_and_dir d0 d1 d2 DIR_MASK (by decide), bcd_dir_dirmask]
  refine ⟨⟨hz, hp⟩, ?_, ?_, ?_⟩
  · intro h
    interval_cases d2 <;> decide
  · intro h e he heq
    interval_cases d2 <;> interval_cases e <;> first | rfl | exact absurd heq (by decide)
  · intro h
    rw [hz, hp, bcd_dir_gt7 h]
    exact ⟨rfl, rfl⟩

/-- Witness for C6 at the centered sentinel d2 = 0x0f with arbitrary
button bytes 0xff: no direction bits are set. -/
theorem c6_witness :
    normalize_zero2 0xff 0xff 0x0f &&& DIR_MASK = 0
    ∧ normalize_powera_wired 0xff 0xff 0x0f &&& DIR_MASK = 0
    ∧ bcd_dir 0x03 ∈ [UP, UP ||| RIGHT, RIGHT, DOWN ||| RIGHT, DOWN,
        DOWN ||| LEFT, LEFT, UP ||| LEFT] := by
  refine ⟨?_, ?_, ?_⟩
  · exact ((c6_bcd_dpad 0xff 0xff 0x0f).2.2.2 (by decide)).1
  · exact ((c6_bcd_dpad 0xff 0xff 0x0f).2.2.2 (by decide)).2
  · exact (c6_bcd_dpad 0 0 0x03).2.1 (by decide)

/-! ## Boot keyboard dpad precedence lemmas -/

theorem lor_eq_zero_right {a b : Nat} (h : a ||| b = 0) : b = 0 := by
  apply Nat.eq_of_testBit_eq
  intro i
  have h2 := congrArg (fun n => Nat.testBit n i) h
  simp only [Nat.testBit_or] at h2
  simp only [Nat.zero_testBit] at h2 ⊢
  exact Bool.or_eq_false_iff.mp h2 |>.2

theorem and_ne_zero_lor_right {x y m : Nat} (h : y &&& m ≠ 0) :
    (x ||| y) &&& m ≠ 0 := by
  rw [Nat.and_distrib_right]
  intro hc
  exact h (lor_eq_zero_right hc)

theorem boot_up_set (d : List Nat)
    (h : 0x1a ∈ keyboard_codes d ∨ 0x52 ∈ keyboard_codes d) :
    normalize_boot_keyboard d &&& UP ≠ 0 := by
  unfold normalize_boot_keyboard
  repeat' apply and_ne_zero_lor
  rw [if_pos h]
  decide

theorem boot_down_clear_of_up (d : List Nat)
    (h : 0x1a ∈ keyboard_codes d ∨ 0x52 ∈ keyboard_codes d) :
    normalize_boot_keyboard d &&& DOWN = 0 := by
  unfold normalize_boot_keyboard
  rw [if_pos h]
  repeat' first
  | apply and_zero_lor
  | apply and_zero_ite
  | apply and_zero_ite2
  all_goals decide

theorem boot_up_clear (d : List Nat)
    (h : ¬ (0x1a ∈ keyboard_codes d ∨ 0x52 ∈ keyboard_codes d)) :
    normalize_boot_keyboard d &&& UP = 0 := by
  unfold normalize_boot_keyboard
  rw [if_neg h]
  repeat' first
  | apply and_zero_lor
  | apply and_zero_ite
  | apply and_zero_ite2
  all_goals decide

theorem boot_left_set (d : List Nat)
    (h : 0x04 ∈ keyboard_codes d ∨ 0x50 ∈ keyboard_codes d) :
    normalize_boot_keyboard d &&& LEFT ≠ 0 := by
  unfold normalize_boot_keyboard
  apply and_ne_zero_lor
  apply and_ne_zero_lor
  apply and_ne_zero_lor
  apply and_ne_zero_lor
  apply and_ne_zero_lor
  apply and_ne_zero_lor
  apply and_ne_zero_lor
  apply and_ne_zero_lor
  apply and_ne_zero_lor_right
  rw [if_pos h]
  decide

theorem boot_right_clear_of_left (d : List Nat)
    (h : 0x04 ∈ keyboard_codes d ∨ 0x50 ∈ keyboard_codes d) :
    normalize_boot_keyboard d &&& RIGHT = 0 := by
  unfold normalize_boot_keyboard
  rw [if_pos h]
  repeat' first
  | apply and_zero_lor
  | apply and_zero_ite
  | apply and_zero_ite2
  all_goals decide

theorem boot_left_clear (d : List Nat)
    (h : ¬ (0x04 ∈ keyboard_codes d ∨ 0x50 ∈ keyboard_codes d)) :
    normalize_boot_keyboard d &&& LEFT = 0 := by
  unfold normalize_boot_keyboard
  rw [if_neg h]
  repeat' first
  | apply and_zero_lor
  | apply and_zero_ite
  | apply and_zero_ite2
  all_goals decide

/-! ## Claim C7: boot keyboard slot usage and direction precedence -/

/-- C7: the boot keyboard normalizer depends only on the first three
key-code slots d[2..4] (modifier byte, reserved byte and slots 4-6 are
ignored: changing them leaves the result unchanged), and when the held
codes assert opposing directions, UP (W / up-arrow) wins over DOWN and
LEFT (A / left-arrow) wins over RIGHT. -/
theorem c7_boot_keyboard (b0 b1 b2 b3 b4 b5 b6 b7 a0 a1 a5 a6 a7 : Nat)
    (d : List Nat) :
    normalize_boot_keyboard [b0, b1, b2, b3, b4, b5, b6, b7]
      = normalize_boot_keyboard [a0, a1, b2, b3, b4, a5, a6, a7]
    ∧ ((0x1a ∈ keyboard_codes d ∨ 0x52 ∈ keyboard_codes d) →
        normalize_boot_keyboard d &&& UP ≠ 0
        ∧ normalize_boot_keyboard d &&& DOWN = 0)
    ∧ ((0x04 ∈ keyboard_codes d ∨ 0x50 ∈ keyboard_codes d) →
        normalize_boot_keyboard d &&& LEFT ≠ 0
        ∧ normalize_boot_keyboard d &&& RIGHT = 0) := by
  refine ⟨rfl, fun h => ⟨boot_up_set d h, boot_down_clear_of_up d h⟩,
    fun h => ⟨boot_left_set d h, boot_right_clear_of_left d h⟩⟩

/-- Witness for C7: W (0x1a), S (0x16), A (0x04) and D (0x07) held at
once in the first three slots is impossible, so use W+S in slots 1-2 and
A in slot 3; UP and LEFT win, DOWN and RIGHT stay clear. -/
theorem c7_witness :
    normalize_boot_keyboard [0, 0, 0x1a, 0x16, 0x04, 0, 0, 0] &&& UP ≠ 0
    ∧ normalize_boot_keyboard [0, 0, 0x1a, 0x16, 0x04, 0, 0, 0] &&& DOWN = 0
    ∧ normalize_boot_keyboard [0, 0, 0x1a, 0x16, 0x04, 0, 0, 0] &&& LEFT ≠ 0
    ∧ normalize_boot_keyboard [0, 0, 0x1a, 0x16, 0x04, 0, 0, 0] &&& RIGHT = 0
    ∧ normalize_boot_keyboard [0, 0, 0x1a, 0, 0, 9, 9, 9]
        = normalize_boot_keyboard [7, 7, 0x1a, 0, 0, 0, 0, 0] := by
  have h2 := (c7_boot_keyboard 0 0 0x1a 0x16 0x04 0 0 0 0 0 0 0 0
    [0, 0, 0x1a, 0x16, 0x04, 0, 0, 0]).2.1 (Or.inl (by decide))
  have h3 := (c7_boot_keyboard 0 0 0x1a 0x16 0x04 0 0 0 0 0 0 0 0
    [0, 0, 0x1a, 0x16, 0x04, 0, 0, 0]).2.2 (Or.inl (by decide))
  exact ⟨h2.1, h2.2, h3.1, h3.2,
    (c7_boot_keyboard 0 0 0x1a 0 0 9 9 9 7 7 0 0 0 []).1⟩

/-! ## Claim C9: all normalizer outputs are 16-bit canonical values -/

theorem lt_two_pow_16_of_mask {v : Nat} (h : v &&& BUTTON_MASK = v) :
    v < 2 ^ 16 :=
  lt_of_le_of_lt (le_of_and_mask h) (by decide)

/-- C9: for every device type and every input report, the normalized
value is 16-bit.  The five table-driven normalizers use only the twelve
defined canonical button bits (value unchanged under BUTTON_MASK, hence
below 2^16); the XInput passthrough may carry any 16-bit pattern but,
for byte inputs, stays below 2^16. -/
theorem c9_sixteen_bit (b0 b1 b2 b3 : Nat) (d : List Nat) (lo hi : Nat) :
    (normalize_switchpro b0 b1 b2 &&& BUTTON_MASK = normalize_switchpro b0 b1 b2
      ∧ normalize_switchpro b0 b1 b2 < 2 ^ 16)
    ∧ (normalize_adasnes b0 b1 b2 b3 &&& BUTTON_MASK = normalize_adasnes b0 b1 b2 b3
      ∧ normalize_adasnes b0 b1 b2 b3 < 2 ^ 16)
    ∧ (normalize_zero2 b0 b1 b2 &&& BUTTON_MASK = normalize_zero2 b0 b1 b2
      ∧ normalize_zero2 b0 b1 b2 < 2 ^ 16)
    ∧ (normalize_powera_wired b0 b1 b2 &&& BUTTON_MASK = normalize_powera_wired b0 b1 b2
      ∧ normalize_powera_wired b0 b1 b2 < 2 ^ 16)
    ∧ (normalize_boot_keyboard d &&& BUTTON_MASK = normalize_boot_keyboard d
      ∧ normalize_boot_keyboard d < 2 ^ 16)
    ∧ (lo < 256 → hi < 256 → normalize_xinput [lo, hi] < 2 ^ 16) := by
  refine ⟨⟨normalize_switchpro_mask b0 b1 b2, lt_two_pow_16_of_mask (normalize_switchpro_mask b0 b1 b2)⟩,
    ⟨normalize_adasnes_mask b0 b1 b2 b3, lt_two_pow_16_of_mask (normalize_adasnes_mask b0 b1 b2 b3)⟩,
    ⟨normalize_zero2_mask b0 b1 b2, lt_two_pow_16_of_mask (normalize_zero2_mask b0 b1 b2)⟩,
    ⟨normalize_powera_mask b0 b1 b2, lt_two_pow_16_of_mask (normalize_powera_mask b0 b1 b2)⟩,
    ⟨normalize_boot_keyboard_mask d, lt_two_pow_16_of_mask (normalize_boot_keyboard_mask d)⟩,
    ?_⟩
  intro hlo hhi
  show (hi <<< 8) ||| lo < 2 ^ 16
  have h1 : hi <<< 8 < 2 ^ 16 := by
    rw [Nat.shiftLeft_eq]
    norm_num
    omega
  have h2 : lo < 2 ^ 16 := lt_of_lt_of_le hlo (by norm_num)
  exact Nat.or_lt_two_pow h1 h2

/-- Witness for C9: spec Scenario 1 bytes for the handshake type and a
concrete byte pair for the XInput passthrough bound. -/
theorem c9_witness :
    normalize_switchpro 0x08 0x00 0x00 &&& BUTTON_MASK
      = normalize_switchpro 0x08 0x00 0x00
    ∧ normalize_xinput [0xff, 0xff] < 2 ^ 16 := by
  exact ⟨(c9_sixteen_bit 0x08 0x00 0x00 0 [] 0xff 0xff).1.1,
    (c9_sixteen_bit 0x08 0x00 0x00 0 [] 0xff 0xff).2.2.2.2.2 (by decide) (by decide)⟩

/-! ## Claim C10: no opposing direction bits -/

/-- C10: the two BCD-dpad normalizers and the boot keyboard normalizer
never set UP and DOWN together, nor LEFT and RIGHT together, for any
input bytes. -/
theorem c10_no_opposing (d0 d1 d2 : Nat) (d : List Nat) :
    ((normalize_zero2 d0 d1 d2 &&& UP = 0 ∨ normalize_zero2 d0 d1 d2 &&& DOWN = 0)
      ∧ (normalize_zero2 d0 d1 d2 &&& LEFT = 0
        ∨ normalize_zero2 d0 d1 d2 &&& RIGHT = 0))
    ∧ ((normalize_powera_wired d0 d1 d2 &&& UP = 0
        ∨ normalize_powera_wired d0 d1 d2 &&& DOWN = 0)
      ∧ (normalize_powera_wired d0 d1 d2 &&& LEFT = 0
        ∨ normalize_powera_wired d0 d1 d2 &&& RIGHT = 0))
    ∧ ((normalize_boot_keyboard d &&& UP = 0
        ∨ normalize_boot_keyboard d &&& DOWN = 0)
      ∧ (normalize_boot_keyboard d &&& LEFT = 0
        ∨ normalize_boot_keyboard d &&& RIGHT = 0)) := by
  refine ⟨⟨?_, ?_⟩, ⟨?_, ?_⟩, ⟨?_, ?_⟩⟩
  · rcases (bcd_dir_no_opposing d2).1 with h | h
    · exact Or.inl (by rw [zero2_and_dir d0 d1 d2 UP (by decide), h])
    · exact Or.inr (by rw [zero2_and_dir d0 d1 d2 DOWN (by decide), h])
  · rcases (bcd_dir_no_opposing d2).2 with h | h
    · exact Or.inl (by rw [zero2_and_dir d0 d1 d2 LEFT (by decide), h])
    · exact Or.inr (by rw [zero2_and_dir d0 d1 d2 RIGHT (by decide), h])
  · rcases (bcd_dir_no_opposing d2).1 with h | h
    · exact Or.inl (by rw [powera_and_dir d0 d1 d2 UP (by decide), h])
    · exact Or.inr (by rw [powera_and_dir d0 d1 d2 DOWN (by decide), h])
  · rcases (bcd_dir_no_opposing d2).2 with h | h
    · exact Or.inl (by rw [powera_and_dir d0 d1 d2 LEFT (by decide), h])
    · exact Or.inr (by rw [powera_and_dir d0 d1 d2 RIGHT (by decide), h])
  · by_cases h : 0x1a ∈ keyboard_codes d ∨ 0x52 ∈ keyboard_codes d
    · exact Or.inr (boot_down_clear_of_up d h)
    · exact Or.inl (boot_up_clear d h)
  · by_cases h : 0x04 ∈ keyboard_codes d ∨ 0x50 ∈ keyboard_codes d
    · exact Or.inr (boot_right_clear_of_left d h)
    · exact Or.inl (boot_left_clear d h)

/-! ## Claim C1: dedup cycles suppress and leave the session unchanged -/

/-- C1: in any cycle whose read happens (threshold reached) and
succeeds, if the filter reports NoSignal or the filtered bytes equal
the retained previous report byte-for-byte, the loop yields Suppress
(None), keeps `prev_report`, and does not swap the active/inactive
buffer roles (only the timers/counters reset); and after any cycle that
emits a report, feeding the same filtered report again in a later
read-due cycle yields Suppress.  This holds for every device type since
filter `f` and ceiling `mt` are arbitrary. -/
theorem c1_dedup_suppress (f : List Nat → Option (List Nat)) (mt tg : Nat)
    (s : PollState) (dt : Nat) (bytes : List Nat) :
    (tg ≤ s.poll_ms + dt →
      (f bytes = none ∨ f bytes = some s.prev_report) →
      pollStep f mt tg s dt (.success bytes)
        = ({ s with poll_ms := 0, timeouts := 0 }, .suppress))
    ∧ (∀ s' r, pollStep f mt tg s dt (.success bytes) = (s', .emit r) →
        ∀ dt2 bytes2, tg ≤ s'.poll_ms + dt2 → f bytes2 = some r →
          pollStep f mt tg s' dt2 (.success bytes2)
            = ({ s' with poll_ms := 0, timeouts := 0 }, .suppress)) := by
  constructor
  · intro h hd
    rcases hd with hd | hd <;>
      simp [pollStep, Nat.not_lt.mpr h, hd]
  · intro s' r hemit dt2 bytes2 h2 hf2
    have hprev : s'.prev_report = r := by
      unfold pollStep at hemit
      by_cases hlt : s.poll_ms + dt < tg
      · rw [if_pos hlt] at hemit
        simp at hemit
      · rw [if_neg hlt] at hemit
        dsimp only at hemit
        cases hf : f bytes with
        | none => rw [hf] at hemit; simp at hemit
        | some rep =>
          rw [hf] at hemit
          dsimp only at hemit
          by_cases heq : rep = s.prev_report
          · rw [if_pos heq] at hemit; simp at hemit
          · rw [if_neg heq] at hemit
            have h1 := congrArg Prod.fst hemit
            have hy := congrArg Prod.snd hemit
            simp only at h1 hy
            cases hy
            rw [← h1]
    simp [pollStep, Nat.not_lt.mpr h2, hf2, hprev]

/-- Witness for C1: a fresh 2-byte session, identity-like filter.  A
first read-due cycle with bytes [1, 2] emits; feeding [1, 2] again in
the next read-due cycle suppresses; and a read-due cycle whose filtered
bytes equal the retained report suppresses directly. -/
theorem c1_witness :
    pollStep (fun b => some b) 99 4 (initPollState 2) 5 (.success [0, 0])
      = ({ initPollState 2 with poll_ms := 0, timeouts := 0 }, .suppress)
    ∧ pollStep (fun b => some b) 99 4
        { odd := false, prev_report := [1, 2], timeouts := 0, poll_ms := 0 } 5
        (.success [1, 2])
      = ({ odd := false, prev_report := [1, 2], timeouts := 0, poll_ms := 0 },
         .suppress) := by
  constructor
  · exact (c1_dedup_suppress (fun b => some b) 99 4 (initPollState 2) 5
      [0, 0]).1 (by decide) (Or.inr rfl)
  · exact (c1_dedup_suppress (fun b => some b) 99 4 (initPollState 2) 5
      [1, 2]).2
      { odd := false, prev_report := [1, 2], timeouts := 0, poll_ms := 0 }
      [1, 2] rfl 5 [1, 2] (by decide) rfl

/-! ## Claim C2: consecutive-timeout counter and disconnect ceiling -/

/-- C2: the per-type ceilings are 99 for all five gamepad types and
9999 for the boot keyboard; in any read-due cycle a successful read
resets the consecutive-timeout counter to zero, while a timeout
increments it and yields Disconnected exactly when the incremented
counter exceeds the ceiling; at a gamepad counter of 98 the next
timeout reaches the ceiling 99 and still suppresses, at 99 the next
(100th consecutive) timeout yields Disconnected; and a fresh gamepad
session run through 100 consecutive read-due timeouts yields 99
Suppress values followed by Disconnected. -/
theorem c2_timeout_ceiling :
    (max_timeouts TYPE_SWITCH_PRO = 99 ∧ max_timeouts TYPE_ADAFRUIT_SNES = 99
      ∧ max_timeouts TYPE_8BITDO_ZERO2 = 99 ∧ max_timeouts TYPE_XINPUT = 99
      ∧ max_timeouts TYPE_POWERA_WIRED = 99
      ∧ max_timeouts TYPE_BOOT_KEYBOARD = 9999)
    ∧ (∀ f mt tg s dt bytes, tg ≤ s.poll_ms + dt →
        ((pollStep f mt tg s dt (.success bytes)).1).timeouts = 0)
    ∧ (∀ f mt tg s dt, tg ≤ s.poll_ms + dt →
        pollStep f mt tg s dt .timeout
          = ({ s with poll_ms := 0, timeouts := s.timeouts + 1 },
             if s.timeouts + 1 > mt then PollYield.disconnected
             else PollYield.suppress))
    ∧ (∀ f tg s dt, tg ≤ s.poll_ms + dt → s.timeouts = 98 →
        (pollStep f (max_timeouts TYPE_XINPUT) tg s dt .timeout).2
          = PollYield.suppress
        ∧ ((pollStep f (max_timeouts TYPE_XINPUT) tg s dt .timeout).1).timeouts
          = 99)
    ∧ (∀ f tg s dt, tg ≤ s.poll_ms + dt → s.timeouts = 99 →
        (pollStep f (max_timeouts TYPE_XINPUT) tg s dt .timeout).2
          = PollYield.disconnected)
    ∧ (pollRunTimeouts (fun b => some b) (max_timeouts TYPE_XINPUT) 1 1 100
        (initPollState 8)).2
      = List.replicate 99 PollYield.suppress ++ [PollYield.disconnected] := by
  refine ⟨⟨rfl, rfl, rfl, rfl, rfl, rfl⟩, ?_, ?_, ?_, ?_, ?_⟩
  · intro f mt tg s dt bytes h
    unfold pollStep
    rw [if_neg (Nat.not_lt.mpr h)]
    dsimp only
    cases hf : f bytes with
    | none => rfl
    | some rep =>
      dsimp only
      by_cases heq : rep = s.prev_report
      · rw [if_pos heq]
      · rw [if_neg heq]
  · intro f mt tg s dt h
    unfold pollStep
    rw [if_neg (Nat.not_lt.mpr h)]
    dsimp only
    by_cases hgt : s.timeouts + 1 > mt
    · rw [if_pos hgt, if_pos hgt]
    · rw [if_neg hgt, if_neg hgt]
  · intro f tg s dt h h98
    unfold pollStep
    rw [if_neg (Nat.not_lt.mpr h)]
    dsimp only
    rw [if_neg (by simp [h98, max_timeouts, TYPE_XINPUT,
      TYPE_BOOT_KEYBOARD, TOO_MANY_GAMEPAD_TIMEOUTS])]
    exact ⟨rfl, by simp [h98]⟩
  · intro f tg s dt h h99
    unfold pollStep
    rw [if_neg (Nat.not_lt.mpr h)]
    dsimp only
    rw [if_pos (by simp [h99, max_timeouts, TYPE_XINPUT,
      TYPE_BOOT_KEYBOARD, TOO_MANY_GAMEPAD_TIMEOUTS])]
  · decide

/-- Witness for C2: boundary at the ceiling for a concrete gamepad
session state with 98 and 99 accumulated consecutive timeouts. -/
theorem c2_witness :
    (pollStep (fun b => some b) (max_timeouts TYPE_XINPUT) 1
        { odd := true, prev_report := [0], timeouts := 98, poll_ms := 0 } 1
        .timeout).2 = PollYield.suppress
    ∧ (pollStep (fun b => some b) (max_timeouts TYPE_XINPUT) 1
        { odd := true, prev_report := [0], timeouts := 99, poll_ms := 0 } 1
        .timeout).2 = PollYield.disconnected
    ∧ ((pollStep (fun b => some b) 9999 1
        { odd := true, prev_report := [0], timeouts := 77, poll_ms := 0 } 1
        (.success [1])).1).timeouts = 0 := by
  refine ⟨?_, ?_, ?_⟩
  · exact ((c2_timeout_ceiling.2.2.2.1 (fun b => some b) 1
      { odd := true, prev_report := [0], timeouts := 98, poll_ms := 0 } 1
      (by decide) rfl)).1
  · exact c2_timeout_ceiling.2.2.2.2.1 (fun b => some b) 1
      { odd := true, prev_report := [0], timeouts := 99, poll_ms := 0 } 1
      (by decide) rfl
  · exact c2_timeout_ceiling.2.1 (fun b => some b) 9999 1
      { odd := true, prev_report := [0], timeouts := 77, poll_ms := 0 } 1 [1]
      (by decide)

/-! ## Claim C3: cache hit ends the scan instead of continuing -/

/-- C3 counterexample: with the first device's fingerprint already in
the cache and an uncached SwitchPro-matching device right after it in
the same enumeration, the scan returns NoneFound: it does not continue
to the later matching device, contrary to the claim that it "continues
iterating to the next attached device". -/
theorem c3_counterexample :
    find_usb_device [demo_cached_device, demo_switchpro_device]
        [(demo_cached_device.desc_bytes, demo_cached_device.port_numbers)]
      = ScanOutcome.noneFound
          [(demo_cached_device.desc_bytes, demo_cached_device.port_numbers)]
    ∧ match_signature demo_switchpro_device = some (TYPE_SWITCH_PRO, "SwitchPro")
    ∧ ∀ ty tag c,
        find_usb_device [demo_cached_device, demo_switchpro_device]
            [(demo_cached_device.desc_bytes, demo_cached_device.port_numbers)]
          ≠ ScanOutcome.found ty tag c := by
  have hscan : find_usb_device [demo_cached_device, demo_switchpro_device]
      [(demo_cached_device.desc_bytes, demo_cached_device.port_numbers)]
    = ScanOutcome.noneFound
        [(demo_cached_device.desc_bytes, demo_cached_device.port_numbers)] := by
    decide
  refine ⟨hscan, by decide, ?_⟩
  intro ty tag c h
  rw [hscan] at h
  exact ScanOutcome.noConfusion h

/-- C3 amended: when the device under inspection has a cached
fingerprint key (and a non-zero descriptor), `find_usb_device` returns
NoneFound immediately with the cache unchanged, regardless of what
later devices are attached; the rest of the enumeration is not
examined by that call. -/
theorem c3_cached_stops_scan (d : UsbDevice) (rest : List UsbDevice)
    (cache : List (List Nat × List Nat))
    (hz : d.desc_bytes.all (fun b => b == 0) = false)
    (hc : (d.desc_bytes, d.port_numbers) ∈ cache) :
    find_usb_device (d :: rest) cache = ScanOutcome.noneFound cache := by
  simp [find_usb_device, hz, hc]

/-- Witness for the amended C3 at the concrete cached device, with the
matching device attached after it. -/
theorem c3_cached_stops_scan_witness :
    find_usb_device [demo_cached_device, demo_switchpro_device]
        [(demo_cached_device.desc_bytes, demo_cached_device.port_numbers)]
      = ScanOutcome.noneFound
          [(demo_cached_device.desc_bytes, demo_cached_device.port_numbers)] :=
  c3_cached_stops_scan demo_cached_device [demo_switchpro_device] _
    (by decide) (by decide)

/-! ## Claim C8: all-zeros descriptor raises an enumeration error -/

/-- C8: when the scan reaches a device whose raw descriptor bytes are
all zero, the whole call fails with the enumeration error (modelling
the raised ValueError), regardless of the cache contents or of any
later devices: the device is neither skipped nor matched. -/
theorem c8_allzero_descriptor (d : UsbDevice) (rest : List UsbDevice)
    (cache : List (List Nat × List Nat))
    (hz : d.desc_bytes.all (fun b => b == 0) = true) :
    find_usb_device (d :: rest) cache = ScanOutcome.enumError := by
  simp [find_usb_device, hz]

/-- Witness for C8: an 18-byte all-zeros descriptor errors the scan even
though its vid:pid fields would match SwitchPro and a healthy matching
device follows it. -/
theorem c8_witness :
    find_usb_device
        [{ desc_bytes := List.replicate 18 0, port_numbers := [1], vid := 0x057e,
           pid := 0x2009, dev_cs := (0, 0), int0_cs := (0, 0) },
         demo_switchpro_device] []
      = ScanOutcome.enumError :=
  c8_allzero_descriptor _ _ _ (by decide)

/-! ## Claim C4: rate limiting and the high-speed interval conversion -/

/-- C4: the 75%-threshold behaviour holds (below threshold the cycle
suppresses without consuming the read outcome and only accumulates
`poll_ms`; at or above it the accumulator resets and the read outcome
is consumed), but the high-speed interval conversion diverges from the
claim: the code computes `(2 <<< (bInterval - 1)) >>> 3`, which is
2^bInterval x 125 microseconds, twice the 2^(bInterval-1) x 125
microseconds stated by the claim and by the code's own comment; at
bInterval = 4 the code gets 2 ms where the stated formula gives 1 ms. -/
theorem c4_highspeed_interval_divergence :
    interval_1ms_units true 4 = 2
    ∧ hs_interval_ms_spec 4 = 1
    ∧ interval_1ms_units true 4 ≠ hs_interval_ms_spec 4
    ∧ interval_1ms_units false 8 = 8
    ∧ poll_target 8 = 6
    ∧ pollStep (fun b => some b) 99 6 (initPollState 8) 5 ReadOutcome.usbError
      = ({ initPollState 8 with poll_ms := 5 }, PollYield.suppress)
    ∧ pollStep (fun b => some b) 99 6 (initPollState 8) 5 (.success [1])
      = ({ initPollState 8 with poll_ms := 5 }, PollYield.suppress)
    ∧ pollStep (fun b => some b) 99 6 (initPollState 8) 6 (.success [1])
      = ({ odd := false, prev_report := [1], timeouts := 0, poll_ms := 0 },
         PollYield.emit [1]) := by
  decide

end SbGamepad
